import Mathlib

/-!
Shallow embedding of the NDWI windowed-threshold labelling pipeline
(`get_ndwi_label` in `ndwi_labels.py`).

Modelling conventions:
* numpy float arithmetic is modelled over `ℚ`, with an explicit
  `FloatVal` type for the IEEE special values (`inf`, `-inf`, `nan`)
  where the code relies on them (`np.seterr(... 'ignore')` division,
  `np.mean` of an empty list).
* The raster is a total function `ℕ → ℕ → ℚ` together with its height
  and width; a window footprint is the axis-aligned square of side
  `2*ksize+1` pixels that rasterio rasterises from the square buffer
  (`cap_style=3`) around a point, recorded by its top-left pixel
  coordinate (possibly negative, when the footprint sticks out of the
  raster).
* `rasterio.mask.mask(..., crop=False)` keeps the full raster shape and
  writes the nodata value (-1) outside the shapes; `crop=True` crops to
  the bounding box of footprint ∩ raster extent.  This matches the
  function's own docstring ("out_image: same shape as original image").
* `astype(np.uint8)` is the C cast: truncation toward zero followed by
  reduction mod 256; on the values that occur here (≥ 0) truncation is
  `Int.floor`, modelled by `(⌊x⌋).toNat % 256`.
* The Otsu threshold is computed by the external library call
  `cv2.threshold(..., THRESH_OTSU)`; the pipeline is parametrised by an
  arbitrary threshold function `OtsuFn` of the clipped array, which is
  all the claims below depend on.
-/

/-- An IEEE-style floating point value: a finite rational, one of the two
infinities, or `nan`. -/
inductive FloatVal where
  | fin (q : ℚ)
  | pinf
  | ninf
  | nan
deriving DecidableEq

/-- IEEE division as numpy performs it under `np.seterr(divide='ignore',
invalid='ignore')`: `0/0` is `nan`, `x/0` for `x ≠ 0` is a signed
infinity, otherwise the exact quotient. -/
def fdiv (num den : ℚ) : FloatVal :=
  if den = 0 then
    if num = 0 then FloatVal.nan
    else if 0 < num then FloatVal.pinf else FloatVal.ninf
  else FloatVal.fin (num / den)

/-- `ndwi[np.isnan(ndwi)] = 0`: replace `nan` by `0`, keep everything
else. -/
def nanToZero : FloatVal → FloatVal
  | FloatVal.nan => FloatVal.fin 0
  | v => v

/-- One cell of `ndwi = (green - nir) / (green + nir)` followed by the
`nan → 0` fix-up (lines 84-85 of the source). -/
def ndwiCell (green nir : ℚ) : FloatVal :=
  nanToZero (fdiv (green - nir) (green + nir))

/-- `(v * 127) + 128` followed by `Int.floor`: the exact value the C cast
in `astype(np.uint8)` truncates to, before the mod-256 wrap. -/
def quantizeZ (v : ℚ) : ℤ := ⌊v * 127 + 128⌋

/-- The full quantization of one cell as the code performs it
(lines 127-128, 132-133, 161): `(v * 127) + 128` then `astype(np.uint8)`,
i.e. truncation toward zero and reduction mod 256. -/
def quantize8 (v : ℚ) : ℕ := (quantizeZ v).toNat % 256

/-- The quantization the specification text describes: `round(v*127+128)`
clipped to `[0, 255]`.  Stated only to be compared with `quantize8`. -/
def specQuantize (v : ℚ) : ℤ := min 255 (max 0 (round (v * 127 + 128)))

/-- A single-band raster: height, width and cell values (the NDWI values
written into the in-memory dataset). -/
structure Raster where
  H : ℕ
  W : ℕ
  data : ℕ → ℕ → ℚ

/-- A window footprint: the axis-aligned square of side `2*k+1` pixels
whose top-left pixel is `(r0, c0)` (row, column, possibly negative). -/
structure Window where
  r0 : ℤ
  c0 : ℤ
  k : ℕ
deriving DecidableEq

/-- Pixel `(i, j)` lies inside the window footprint. -/
def inFootprint (w : Window) (i j : ℕ) : Prop :=
  w.r0 ≤ (i : ℤ) ∧ (i : ℤ) ≤ w.r0 + 2 * w.k ∧
  w.c0 ≤ (j : ℤ) ∧ (j : ℤ) ≤ w.c0 + 2 * w.k

instance (w : Window) (i j : ℕ) : Decidable (inFootprint w i j) := by
  unfold inFootprint; infer_instance

/-- `out_image` (line 125-128): `mask(..., crop=False)` keeps the raster
shape and writes nodata `-1` outside the footprint, then everything is
quantized.  The result is a scene-shaped array. -/
def outImage (r : Raster) (w : Window) : ℕ → ℕ → ℕ := fun i j =>
  if inFootprint w i j then quantize8 (r.data i j) else quantize8 (-1)

/-- Shape of `out_image`: `crop=False` keeps the raster's own shape
(height, width) — the source docstring: "same shape as original image". -/
def fullShape (r : Raster) (_w : Window) : ℕ × ℕ := (r.H, r.W)

/-- Height of `out_image_clipped` (line 130): the number of raster rows
met by the footprint, `crop=True` cropping to footprint ∩ raster. -/
def clippedH (r : Raster) (w : Window) : ℕ :=
  (min (w.r0 + 2 * w.k) ((r.H : ℤ) - 1) + 1 - max w.r0 0).toNat

/-- Width of `out_image_clipped`. -/
def clippedW (r : Raster) (w : Window) : ℕ :=
  (min (w.c0 + 2 * w.k) ((r.W : ℤ) - 1) + 1 - max w.c0 0).toNat

/-- Shape of `out_image_clipped`. -/
def clippedShape (r : Raster) (w : Window) : ℕ × ℕ :=
  (clippedH r w, clippedW r w)

/-- The clipped, quantized window content (lines 130-133): the masked
raster cropped to the footprint's bounding box, then quantized. -/
def outImageClipped (r : Raster) (w : Window) : ℕ → ℕ → ℕ := fun i j =>
  quantize8 (r.data ((max w.r0 0).toNat + i) ((max w.c0 0).toNat + j))

/-- The footprint lies entirely inside the raster extent. -/
def footprintInside (r : Raster) (w : Window) : Prop :=
  0 ≤ w.r0 ∧ w.r0 + 2 * w.k ≤ (r.H : ℤ) - 1 ∧
  0 ≤ w.c0 ∧ w.c0 + 2 * w.k ≤ (r.W : ℤ) - 1

instance (r : Raster) (w : Window) : Decidable (footprintInside r w) := by
  unfold footprintInside; infer_instance

/-- One cell of `np.where(out_image >= threshold_clipped, 1, 0)`
(line 144): the uint8 pixel is compared against the float threshold. -/
def classifyCell (q : ℕ) (t : ℚ) : ℕ := if t ≤ (q : ℚ) then 1 else 0

/-- The mutable state of the per-point loop: `label`,
`otsu_thresholds_clipped` and `skipped` (lines 94, 108, 109). -/
structure PState where
  label : ℕ → ℕ → ℕ
  thresholds : List ℚ
  skipped : ℕ

/-- Loop state before any window is processed: all-zero label raster,
empty threshold list, zero skip counter. -/
def initState : PState :=
  { label := fun _ _ => 0, thresholds := [], skipped := 0 }

/-- The external Otsu thresholder (`cv2.threshold(..., THRESH_OTSU)`),
abstracted as an arbitrary function of the clipped array and its
dimensions. -/
def OtsuFn : Type := (ℕ → ℕ → ℕ) → ℕ → ℕ → ℚ

/-- The threshold the code computes for window `w` (line 142): Otsu on
the clipped image. -/
def otsuOf (r : Raster) (otsu : OtsuFn) (w : Window) : ℚ :=
  otsu (outImageClipped r w) (clippedH r w) (clippedW r w)

/-- One iteration of the per-point loop (lines 125-145): reject when a
clipped dimension is `< 200` (skip counter increments, nothing else
changes); otherwise append the Otsu threshold and OR the thresholded
scene-shaped window into the label raster. -/
def processWindow (r : Raster) (otsu : OtsuFn) (s : PState) (w : Window) :
    PState :=
  if clippedH r w < 200 ∨ clippedW r w < 200 then
    { label := s.label, thresholds := s.thresholds, skipped := s.skipped + 1 }
  else
    { label := fun i j =>
        s.label i j ||| classifyCell (outImage r w i j) (otsuOf r otsu w),
      thresholds := s.thresholds ++ [otsuOf r otsu w],
      skipped := s.skipped }

/-- The whole per-point loop, starting from the blank state. -/
def processAll (r : Raster) (otsu : OtsuFn) (ws : List Window) : PState :=
  ws.foldl (processWindow r otsu) initState

/-- The window acceptance condition: both clipped dimensions at least
200 (negation of the skip test on line 136). -/
def acceptedW (r : Raster) (w : Window) : Prop :=
  200 ≤ clippedH r w ∧ 200 ≤ clippedW r w

instance (r : Raster) (w : Window) : Decidable (acceptedW r w) := by
  unfold acceptedW; infer_instance

/-- `np.mean` of a list: `nan` when the list is empty (numpy emits a
RuntimeWarning and returns `nan`), the exact mean otherwise. -/
def npMean (ts : List ℚ) : FloatVal :=
  if ts = [] then FloatVal.nan else FloatVal.fin (ts.sum / (ts.length : ℚ))

/-- Adding a finite constant to a float value: `nan + c = nan`. -/
def faddConst (x : FloatVal) (c : ℚ) : FloatVal :=
  match x with
  | FloatVal.fin q => FloatVal.fin (q + c)
  | v => v

/-- IEEE `>=` comparison of a finite value against a float threshold:
every comparison with `nan` is false. -/
def fge (q : ℚ) (t : FloatVal) : Bool :=
  match t with
  | FloatVal.fin tq => decide (tq ≤ q)
  | FloatVal.pinf => false
  | FloatVal.ninf => true
  | FloatVal.nan => false

/-- `mean_threshold = np.mean(otsu_thresholds_clipped) + 10` (line 160). -/
def meanThreshold (ts : List ℚ) : FloatVal := faddConst (npMean ts) 10

/-- One cell of `ndwi_classified = np.where(ndwi_8bit >= mean_threshold,
1, 0)` (line 162), for an already-quantized pixel value. -/
def ndwiClassifiedCell (ts : List ℚ) (q : ℕ) : ℕ :=
  if fge (q : ℚ) (meanThreshold ts) then 1 else 0

/-- The full-scene comparator classification (lines 160-162): quantize
the NDWI raster and compare every cell against the mean threshold. -/
def ndwiClassified (ndwi : ℕ → ℕ → ℚ) (ts : List ℚ) : ℕ → ℕ → ℕ :=
  fun i j => ndwiClassifiedCell ts (quantize8 (ndwi i j))

/-! ### Helper lemmas -/

lemma quantizeZ_mono {v1 v2 : ℚ} (h : v1 ≤ v2) : quantizeZ v1 ≤ quantizeZ v2 := by
  unfold quantizeZ
  apply Int.floor_mono
  nlinarith

lemma quantizeZ_lb {v : ℚ} (h : -1 ≤ v) : 1 ≤ quantizeZ v := by
  unfold quantizeZ
  rw [Int.le_floor]
  push_cast
  nlinarith

lemma quantizeZ_ub {v : ℚ} (h : v ≤ 1) : quantizeZ v ≤ 255 := by
  unfold quantizeZ
  have h2 : (v * 127 + 128 : ℚ) ≤ 255 := by nlinarith
  calc ⌊v * 127 + 128⌋ ≤ ⌊(255 : ℚ)⌋ := Int.floor_mono h2
  _ = 255 := by norm_num

lemma quantize8_eq_toNat {v : ℚ} (h1 : -1 ≤ v) (h2 : v ≤ 1) :
    quantize8 v = (quantizeZ v).toNat := by
  unfold quantize8
  apply Nat.mod_eq_of_lt
  have hub := quantizeZ_ub h2
  omega

lemma one_le_quantize8 {v : ℚ} (h1 : -1 ≤ v) (h2 : v ≤ 1) : 1 ≤ quantize8 v := by
  rw [quantize8_eq_toNat h1 h2]
  have hlb := quantizeZ_lb h1
  omega

lemma quantize8_le_255 {v : ℚ} (h1 : -1 ≤ v) (h2 : v ≤ 1) :
    quantize8 v ≤ 255 := by
  rw [quantize8_eq_toNat h1 h2]
  clear h1
  have hub := quantizeZ_ub h2
  omega

lemma quantize8_neg_one : quantize8 (-1) = 1 := by
  norm_num [quantize8, quantizeZ]

/-! ### C4: quantization formula -/

/-- C4 counterexample: the claim says the quantizer computes
`round(v*127+128)` clipped to `[0,255]`; at `v = 1/2` the code's
`astype(np.uint8)` truncation gives `191` while the claimed
round-and-clip gives `192`. -/
theorem c4_round_cex : quantize8 (1 / 2) = 191 ∧ specQuantize (1 / 2) = 192 := by
  constructor
  · norm_num [quantize8, quantizeZ]
    decide
  · norm_num [specQuantize, round_eq]

/-- C4 (amended): for `v ∈ [-1, 1]` quantization maps `v` to
`⌊v*127 + 128⌋` (truncation, not rounding); the result already lies in
`[1, 255]` so the mod-256 wrap never clips anything, and the no-data
value `-1` maps to quantized code `1`. -/
theorem c4_quantize_truncates (v : ℚ) (h1 : -1 ≤ v) (h2 : v ≤ 1) :
    quantize8 v = (⌊v * 127 + 128⌋).toNat ∧
    1 ≤ quantize8 v ∧ quantize8 v ≤ 255 ∧ quantize8 (-1) = 1 :=
  ⟨quantize8_eq_toNat h1 h2, one_le_quantize8 h1 h2,
   quantize8_le_255 h1 h2, quantize8_neg_one⟩

/-- C4 witness: the amended statement instantiated at `v = 0`. -/
theorem c4_witness :
    quantize8 0 = (⌊(0 : ℚ) * 127 + 128⌋).toNat ∧
    1 ≤ quantize8 0 ∧ quantize8 0 ≤ 255 ∧ quantize8 (-1) = 1 :=
  c4_quantize_truncates 0 (by norm_num) (by norm_num)

/-! ### C9: quantization monotone -/

/-- C9: quantization is monotonic on the index range: for `v1 < v2` in
`[-1, 1]`, `quantize8 v1 ≤ quantize8 v2`. -/
theorem c9_quantize_mono (v1 v2 : ℚ) (h1 : -1 ≤ v1) (h12 : v1 < v2)
    (h2 : v2 ≤ 1) : quantize8 v1 ≤ quantize8 v2 := by
  have hv1le : v1 ≤ 1 := le_trans (le_of_lt h12) h2
  have hv2ge : -1 ≤ v2 := le_trans h1 (le_of_lt h12)
  rw [quantize8_eq_toNat h1 hv1le, quantize8_eq_toNat hv2ge h2]
  have hm := quantizeZ_mono (le_of_lt h12)
  omega

/-- C9 witness: monotonicity at `0 < 1/2`. -/
theorem c9_witness : quantize8 0 ≤ quantize8 (1 / 2) :=
  c9_quantize_mono 0 (1 / 2) (by norm_num) (by norm_num) (by norm_num)

/-! ### C5: index formula, zero denominator, range -/

/-- C5: for nonnegative (valid reflectance) bands, each NDWI cell equals
`(g - n) / (g + n)` when the denominator is nonzero, is exactly `0` when
`g + n = 0`, and is always a finite value in `[-1, 1]` (no infinity or
`nan` escapes, i.e. the zero-denominator cells raise nothing). -/
theorem c5_index_range (g n : ℚ) (hg : 0 ≤ g) (hn : 0 ≤ n) :
    (g + n ≠ 0 → ndwiCell g n = FloatVal.fin ((g - n) / (g + n))) ∧
    (g + n = 0 → ndwiCell g n = FloatVal.fin 0) ∧
    ∃ q, ndwiCell g n = FloatVal.fin q ∧ -1 ≤ q ∧ q ≤ 1 := by
  by_cases hd : g + n = 0
  · have hg0 : g = 0 := by nlinarith
    have hn0 : n = 0 := by nlinarith
    subst hg0; subst hn0
    refine ⟨fun hne => absurd hd hne, fun _ => ?_, 0, ?_, by norm_num, by norm_num⟩
    · simp [ndwiCell, fdiv, nanToZero]
    · simp [ndwiCell, fdiv, nanToZero]
  · have hpos : 0 < g + n := lt_of_le_of_ne (by positivity) (Ne.symm hd)
    have heq : ndwiCell g n = FloatVal.fin ((g - n) / (g + n)) := by
      simp [ndwiCell, fdiv, hd, nanToZero]
    refine ⟨fun _ => heq, fun h0 => absurd h0 hd, (g - n) / (g + n), heq, ?_, ?_⟩
    · rw [le_div_iff₀ hpos]
      nlinarith
    · rw [div_le_one hpos]
      nlinarith

/-- C5 witness: the formula case at `g = 1`, `n = 0`. -/
theorem c5_witness : ndwiCell 1 0 = FloatVal.fin ((1 - 0) / (1 + 0)) :=
  (c5_index_range 1 0 (by norm_num) (le_refl 0)).1 (by norm_num)

/-! ### C1: shape of the full window -/

/-- Concrete 300x300 raster used for the C1 counterexample. -/
def c1Raster : Raster := { H := 300, W := 300, data := fun _ _ => 0 }

/-- A default-size window (`ksize = 100`) entirely inside `c1Raster`. -/
def c1Window : Window := { r0 := 50, c0 := 50, k := 100 }

/-- C1 counterexample: with a 300x300 raster and a `ksize = 100`
footprint entirely inside it, `out_image` is scene-shaped (300x300),
not `(2*ksize+1) x (2*ksize+1) = 201x201` — `mask(..., crop=False)`
keeps the raster's own shape. -/
theorem c1_full_shape_cex :
    footprintInside c1Raster c1Window ∧
    fullShape c1Raster c1Window ≠ (2 * c1Window.k + 1, 2 * c1Window.k + 1) := by
  decide

/-- C1 (amended): for a footprint entirely inside the raster, `full`
(`out_image`) always has the raster's own scene shape; it is the
`clipped` output that has shape `(2*ksize+1) x (2*ksize+1)`, and every
pixel of `full` outside the footprint holds the no-data quantized
sentinel `1`. -/
theorem c1_full_window_scene (r : Raster) (w : Window)
    (h : footprintInside r w) :
    fullShape r w = (r.H, r.W) ∧
    clippedShape r w = (2 * w.k + 1, 2 * w.k + 1) ∧
    ∀ i j, ¬ inFootprint w i j → outImage r w i j = 1 := by
  obtain ⟨hr0, hr1, hc0, hc1⟩ := h
  refine ⟨rfl, ?_, ?_⟩
  · simp only [clippedShape, clippedH, clippedW, Prod.mk.injEq]
    constructor
    · omega
    · omega
  · intro i j hnotin
    unfold outImage
    rw [if_neg hnotin, quantize8_neg_one]

/-- C1 witness: the amended statement instantiated on the concrete
raster and window of the counterexample, evaluated at pixel (0,0),
which lies outside the footprint. -/
theorem c1_witness :
    fullShape c1Raster c1Window = (300, 300) ∧
    clippedShape c1Raster c1Window = (201, 201) ∧
    outImage c1Raster c1Window 0 0 = 1 := by
  have h := c1_full_window_scene c1Raster c1Window (by decide)
  exact ⟨h.1, h.2.1, h.2.2 0 0 (by decide)⟩

/-! ### C2: window validity rule -/

/-- C2: a window is accepted iff both clipped dimensions are at least
200; a rejected window increments only the skip counter, appends no
threshold and leaves the label raster untouched (whatever its pixel
content, which the test never reads), while an accepted window appends
its threshold without touching the skip counter. -/
theorem c2_validity (r : Raster) (otsu : OtsuFn) (s : PState) (w : Window) :
    (¬ acceptedW r w →
      processWindow r otsu s w =
        { label := s.label, thresholds := s.thresholds,
          skipped := s.skipped + 1 }) ∧
    (acceptedW r w →
      (processWindow r otsu s w).thresholds =
        s.thresholds ++ [otsuOf r otsu w] ∧
      (processWindow r otsu s w).skipped = s.skipped ∧
      (processWindow r otsu s w).label = fun i j =>
        s.label i j ||| classifyCell (outImage r w i j) (otsuOf r otsu w)) := by
  constructor
  · intro hna
    have hc : clippedH r w < 200 ∨ clippedW r w < 200 := by
      unfold acceptedW at hna
      omega
    simp only [processWindow]
    rw [if_pos hc]
  · intro ha
    have hc : ¬ (clippedH r w < 200 ∨ clippedW r w < 200) := by
      unfold acceptedW at ha
      omega
    simp only [processWindow]
    rw [if_neg hc]
    exact ⟨rfl, rfl, rfl⟩

/-- Concrete 5x5 raster for the C2 witness. -/
def c2Raster : Raster := { H := 5, W := 5, data := fun _ _ => 0 }

/-- A `k = 1` window, whose clipped shape 3x3 is below the 200 minimum. -/
def c2Window : Window := { r0 := 1, c0 := 1, k := 1 }

/-- A concrete stand-in for the external Otsu thresholder. -/
def c2Otsu : OtsuFn := fun _ _ _ => 100

/-- C2 witness: the rejected branch on a concrete too-small window —
only the skip counter changes. -/
theorem c2_witness :
    processWindow c2Raster c2Otsu initState c2Window =
      { label := initState.label, thresholds := initState.thresholds,
        skipped := initState.skipped + 1 } :=
  (c2_validity c2Raster c2Otsu initState c2Window).1 (by decide)

/-! ### C3: global comparator -/

/-- C3 counterexample: with an empty Threshold Set the comparator does
not fail — `np.mean([])` is `nan`, `nan + 10` is `nan`, and every
`>= nan` comparison is false, so the code silently classifies every
pixel as 0, even a pixel whose index value is the maximal `1`. -/
theorem c3_empty_silent_cex :
    ndwiClassified (fun _ _ => 1) [] 0 0 = 0 ∧
    ndwiClassified (fun _ _ => -1) [] 0 0 = 0 := by
  constructor
  · simp [ndwiClassified, ndwiClassifiedCell, meanThreshold, npMean,
      faddConst, fge]
  · simp [ndwiClassified, ndwiClassifiedCell, meanThreshold, npMean,
      faddConst, fge]

/-- C3 (amended): when the Threshold Set is nonempty, the comparator
classifies each quantized cell as 1 iff it is at least
`average(thresholds) + 10`; when the Threshold Set is empty (every
window rejected), the mean is `nan` and the comparator silently
classifies every cell as 0 instead of failing explicitly. -/
theorem c3_comparator (ndwi : ℕ → ℕ → ℚ) (ts : List ℚ) (i j : ℕ) :
    (ts ≠ [] → ndwiClassified ndwi ts i j =
      if ts.sum / (ts.length : ℚ) + 10 ≤ (quantize8 (ndwi i j) : ℚ)
      then 1 else 0) ∧
    (ts = [] → ndwiClassified ndwi ts i j = 0) := by
  constructor
  · intro hne
    rw [ndwiClassified, ndwiClassifiedCell, meanThreshold, npMean,
      if_neg hne]
    simp [faddConst, fge]
  · intro he
    subst he
    simp [ndwiClassified, ndwiClassifiedCell, meanThreshold, npMean,
      faddConst, fge]

/-- C3 witness: with Threshold Set `[100]` and a constant-1 index raster
the comparator classifies 1 (since `110 ≤ 255`); with an empty Threshold
Set it yields 0 on the same raster. -/
theorem c3_witness :
    ndwiClassified (fun _ _ => 1) [100] 0 0 = 1 ∧
    ndwiClassified (fun _ _ => 1) [] 0 0 = 0 := by
  constructor
  · have h := (c3_comparator (fun _ _ => 1) [100] 0 0).1 (by simp)
    rw [h]
    have hq : quantize8 ((fun _ _ => (1 : ℚ)) 0 0) = 255 := by
      norm_num [quantize8, quantizeZ]
      decide
    rw [hq]
    norm_num
  · exact (c3_comparator (fun _ _ => 1) [] 0 0).2 rfl

/-! ### Fold machinery for the label merger -/

/-- The contribution of one window to the label raster: the zero mask if
the window is rejected, its thresholded scene-shaped mask otherwise. -/
def windowMask (r : Raster) (otsu : OtsuFn) (w : Window) : ℕ → ℕ → ℕ :=
  fun i j =>
    if clippedH r w < 200 ∨ clippedW r w < 200 then 0
    else classifyCell (outImage r w i j) (otsuOf r otsu w)

lemma processWindow_label (r : Raster) (otsu : OtsuFn) (s : PState)
    (w : Window) (i j : ℕ) :
    (processWindow r otsu s w).label i j =
      s.label i j ||| windowMask r otsu w i j := by
  unfold processWindow windowMask
  by_cases hc : clippedH r w < 200 ∨ clippedW r w < 200
  · rw [if_pos hc, if_pos hc]
    simp
  · rw [if_neg hc, if_neg hc]

lemma label_foldl (r : Raster) (otsu : OtsuFn) :
    ∀ (ws : List Window) (s : PState) (i j : ℕ),
      (ws.foldl (processWindow r otsu) s).label i j =
        ws.foldl (fun a w2 => a ||| windowMask r otsu w2 i j)
          (s.label i j) := by
  intro ws
  induction ws with
  | nil => intro s i j; rfl
  | cons w ws ih =>
    intro s i j
    rw [List.foldl_cons, List.foldl_cons, ih, processWindow_label]

lemma foldl_lor_perm (m : Window → ℕ) {l1 l2 : List Window}
    (p : l1.Perm l2) :
    ∀ a : ℕ, l1.foldl (fun acc w2 => acc ||| m w2) a =
      l2.foldl (fun acc w2 => acc ||| m w2) a := by
  induction p with
  | nil => intro a; rfl
  | cons x _ ih =>
    intro a
    rw [List.foldl_cons, List.foldl_cons, ih]
  | swap x y l =>
    intro a
    rw [List.foldl_cons, List.foldl_cons, List.foldl_cons, List.foldl_cons]
    rw [show a ||| m y ||| m x = a ||| m x ||| m y from by
      rw [Nat.lor_assoc, Nat.lor_assoc, Nat.lor_comm (m y) (m x)]]
  | trans _ _ ih1 ih2 =>
    intro a
    rw [ih1, ih2]

/-! ### C6: merge is order-invariant and idempotent -/

/-- C6: the OR-merge is order-invariant and idempotent: processing any
permutation of the input windows produces an identical label raster, and
merging the same accepted window twice leaves the label raster exactly
as after merging it once. -/
theorem c6_merge_props (r : Raster) (otsu : OtsuFn) (ws ws2 : List Window)
    (w : Window) :
    (ws.Perm ws2 → ∀ i j,
      (processAll r otsu ws).label i j =
        (processAll r otsu ws2).label i j) ∧
    (acceptedW r w → ∀ (s : PState) (i j : ℕ),
      (processWindow r otsu (processWindow r otsu s w) w).label i j =
        (processWindow r otsu s w).label i j) := by
  constructor
  · intro p i j
    unfold processAll
    rw [label_foldl, label_foldl]
    exact foldl_lor_perm (fun w2 => windowMask r otsu w2 i j) p _
  · intro _ s i j
    rw [processWindow_label, processWindow_label, Nat.lor_assoc,
      Nat.or_self]

/-- Concrete 201x201 raster for the C6 witness. -/
def c6Raster : Raster := { H := 201, W := 201, data := fun _ _ => 0 }

/-- An accepted default-size window inside `c6Raster`. -/
def c6W1 : Window := { r0 := 0, c0 := 0, k := 100 }

/-- A second (too-small, rejected) window. -/
def c6W2 : Window := { r0 := 2, c0 := 2, k := 1 }

/-- A concrete stand-in for the external Otsu thresholder. -/
def c6Otsu : OtsuFn := fun _ _ _ => 100

/-- C6 witness: swapping two concrete windows leaves the label cell
unchanged, and merging the accepted window twice equals merging once. -/
theorem c6_witness :
    (processAll c6Raster c6Otsu [c6W1, c6W2]).label 0 0 =
      (processAll c6Raster c6Otsu [c6W2, c6W1]).label 0 0 ∧
    (processWindow c6Raster c6Otsu
        (processWindow c6Raster c6Otsu initState c6W1) c6W1).label 0 0 =
      (processWindow c6Raster c6Otsu initState c6W1).label 0 0 :=
  ⟨(c6_merge_props c6Raster c6Otsu [c6W1, c6W2] [c6W2, c6W1] c6W1).1
      (by decide) 0 0,
   (c6_merge_props c6Raster c6Otsu [c6W1, c6W2] [c6W2, c6W1] c6W1).2
      (by decide) initState 0 0⟩

/-! ### C7: window classifier and merge -/

/-- C7: for an accepted window with threshold `t`, the classifier puts 1
exactly where the full (scene-shaped) window is `>= t` and 0 elsewhere,
over the same pixel domain as `full`, and that mask is ORed cell by cell
into the label raster; a rejected window leaves the label untouched. -/
theorem c7_classifier (r : Raster) (otsu : OtsuFn) (s : PState)
    (w : Window) (i j : ℕ) :
    (acceptedW r w → (processWindow r otsu s w).label i j =
      s.label i j ||| classifyCell (outImage r w i j) (otsuOf r otsu w)) ∧
    (classifyCell (outImage r w i j) (otsuOf r otsu w) =
      if otsuOf r otsu w ≤ ((outImage r w i j : ℕ) : ℚ) then 1 else 0) ∧
    (¬ acceptedW r w → (processWindow r otsu s w).label i j =
      s.label i j) := by
  refine ⟨?_, rfl, ?_⟩
  · intro ha
    have hc : ¬ (clippedH r w < 200 ∨ clippedW r w < 200) := by
      unfold acceptedW at ha
      omega
    simp only [processWindow]
    rw [if_neg hc]
  · intro hna
    have hc : clippedH r w < 200 ∨ clippedW r w < 200 := by
      unfold acceptedW at hna
      omega
    simp only [processWindow]
    rw [if_pos hc]

/-- Concrete 201x201 raster for the C7 witness. -/
def c7Raster : Raster := { H := 201, W := 201, data := fun _ _ => 0 }

/-- An accepted default-size window inside `c7Raster`. -/
def c7Window : Window := { r0 := 0, c0 := 0, k := 100 }

/-- A concrete stand-in for the external Otsu thresholder. -/
def c7Otsu : OtsuFn := fun _ _ _ => 100

/-- C7 witness: the accepted-branch merge equation at pixel (0,0) of a
concrete accepted window. -/
theorem c7_witness :
    (processWindow c7Raster c7Otsu initState c7Window).label 0 0 =
      initState.label 0 0 |||
        classifyCell (outImage c7Raster c7Window 0 0)
          (otsuOf c7Raster c7Otsu c7Window) :=
  (c7_classifier c7Raster c7Otsu initState c7Window 0 0).1 (by decide)

/-! ### C8: label raster lifecycle invariants -/

lemma classifyCell_binary (q : ℕ) (t : ℚ) :
    classifyCell q t = 0 ∨ classifyCell q t = 1 := by
  unfold classifyCell
  split
  · right; rfl
  · left; rfl

lemma windowMask_binary (r : Raster) (otsu : OtsuFn) (w : Window)
    (i j : ℕ) :
    windowMask r otsu w i j = 0 ∨ windowMask r otsu w i j = 1 := by
  unfold windowMask
  split
  · left; rfl
  · exact classifyCell_binary _ _

lemma lor_binary {a b : ℕ} (ha : a = 0 ∨ a = 1) (hb : b = 0 ∨ b = 1) :
    a ||| b = 0 ∨ a ||| b = 1 := by
  rcases ha with h | h <;> rcases hb with h2 | h2 <;> subst h <;> subst h2
  · left; rfl
  · right; rfl
  · right; rfl
  · right; rfl

lemma le_lor_binary {a b : ℕ} (ha : a = 0 ∨ a = 1) (hb : b = 0 ∨ b = 1) :
    a ≤ a ||| b := by
  rcases ha with h | h <;> rcases hb with h2 | h2 <;> subst h <;> subst h2 <;>
    decide

lemma foldl_lor_binary (r : Raster) (otsu : OtsuFn) :
    ∀ (ws : List Window) (a : ℕ) (i j : ℕ), (a = 0 ∨ a = 1) →
      (ws.foldl (fun acc w2 => acc ||| windowMask r otsu w2 i j) a = 0 ∨
       ws.foldl (fun acc w2 => acc ||| windowMask r otsu w2 i j) a = 1) := by
  intro ws
  induction ws with
  | nil => intro a i j ha; exact ha
  | cons w ws ih =>
    intro a i j ha
    rw [List.foldl_cons]
    exact ih _ i j (lor_binary ha (windowMask_binary r otsu w i j))

/-- C8: the label raster starts all-zero, every cell stays in `{0, 1}`
after any number and placement of windows, and merging one more window
can only grow a cell (bits flip 0 to 1, never back). -/
theorem c8_label_invariants (r : Raster) (otsu : OtsuFn)
    (ws : List Window) (w : Window) (i j : ℕ) :
    initState.label i j = 0 ∧
    ((processAll r otsu ws).label i j = 0 ∨
     (processAll r otsu ws).label i j = 1) ∧
    (processAll r otsu ws).label i j ≤
      (processAll r otsu (ws ++ [w])).label i j := by
  have hbin : (processAll r otsu ws).label i j = 0 ∨
      (processAll r otsu ws).label i j = 1 := by
    unfold processAll
    rw [label_foldl]
    exact foldl_lor_binary r otsu ws _ i j (Or.inl rfl)
  refine ⟨rfl, hbin, ?_⟩
  unfold processAll
  rw [List.foldl_append, List.foldl_cons, List.foldl_nil,
    processWindow_label]
  exact le_lor_binary hbin (windowMask_binary r otsu w i j)

/-! ### C10: a threshold at most 1 floods the whole scene -/

/-- C10: because `full` is scene-shaped and its out-of-footprint pixels
hold the sentinel code 1, an accepted window whose threshold `t` is
`<= 1` classifies every pixel of the scene as 1 (each quantized value is
`>= 1 >= t`), so the merge sets the entire label raster to 1. -/
theorem c10_scene_flood (r : Raster) (otsu : OtsuFn) (s : PState)
    (w : Window) (hacc : acceptedW r w) (ht : otsuOf r otsu w ≤ 1)
    (hdata : ∀ i j, -1 ≤ r.data i j ∧ r.data i j ≤ 1)
    (hbin : ∀ i j, s.label i j = 0 ∨ s.label i j = 1) :
    ∀ i j, (processWindow r otsu s w).label i j = 1 := by
  intro i j
  have hc : ¬ (clippedH r w < 200 ∨ clippedW r w < 200) := by
    unfold acceptedW at hacc
    omega
  simp only [processWindow]
  rw [if_neg hc]
  have h1 : 1 ≤ outImage r w i j := by
    unfold outImage
    split
    · exact one_le_quantize8 (hdata i j).1 (hdata i j).2
    · rw [quantize8_neg_one]
  have hcl : classifyCell (outImage r w i j) (otsuOf r otsu w) = 1 := by
    unfold classifyCell
    rw [if_pos]
    calc otsuOf r otsu w ≤ 1 := ht
    _ ≤ ((outImage r w i j : ℕ) : ℚ) := by exact_mod_cast h1
  show s.label i j ||| classifyCell (outImage r w i j) (otsuOf r otsu w) = 1
  rw [hcl]
  rcases hbin i j with h | h <;> rw [h] <;> rfl

/-- Concrete 201x201 raster for the C10 witness. -/
def c10Raster : Raster := { H := 201, W := 201, data := fun _ _ => 0 }

/-- An accepted default-size window inside `c10Raster`. -/
def c10Window : Window := { r0 := 0, c0 := 0, k := 100 }

/-- A concrete thresholder returning the degenerate threshold 1. -/
def c10Otsu : OtsuFn := fun _ _ _ => 1

/-- C10 witness: on a concrete accepted window with threshold 1, the
merged label is 1 even at pixel (0,0). -/
theorem c10_witness :
    (processWindow c10Raster c10Otsu initState c10Window).label 0 0 = 1 :=
  c10_scene_flood c10Raster c10Otsu initState c10Window (by decide)
    (le_refl 1)
    (fun i j => ⟨show (-1 : ℚ) ≤ 0 by norm_num, show (0 : ℚ) ≤ 1 by norm_num⟩)
    (fun i j => Or.inl rfl) 0 0
